import Mathlib

/-!
Shallow embedding of the GameTank SDK system-control / DMA-arbitration layer
(`src/rom/src/sdk/scr.rs`).

Registers are bytes, modelled as `Nat` values; all register values produced by
the layer stay below 256. The write-only hardware registers are modelled by a
hardware copy of the register bank (`SystemControl.scr`) together with an
explicit trace of write events, so that claims about *which* registers are
written, with *which* byte values, and in *which* order can be stated.
The shadow image is `SystemControl.mir`, mirroring the `SCR_MIR` static.
-/

set_option maxRecDepth 100000

namespace GameTank

-- Bit constants of the `VideoFlags` bitflags (video/DMA register, $2007).
namespace VideoFlags

def DMA_ENABLE : Nat := 0b00000001
def DMA_PAGE_OUT : Nat := 0b00000010
def DMA_NMI : Nat := 0b00000100
def DMA_COLORFILL : Nat := 0b00001000
def DMA_GCARRY : Nat := 0b00010000
def DMA_CPU_TO_VRAM : Nat := 0b00100000
def DMA_IRQ : Nat := 0b01000000
def DMA_OPAQUE : Nat := 0b10000000

end VideoFlags

-- Bit constants of the `BankFlags` bitflags (banking register, $2005).
namespace BankFlags

def FRAMEBUFFER_SELECT : Nat := 0b00001000
def CLIP_X : Nat := 0b00010000
def CLIP_Y : Nat := 0b00100000

end BankFlags

/-- `bitflags` `insert`: set the bits of `f`. -/
def insertFlag (v f : Nat) : Nat := v ||| f

/-- `bitflags` `remove`: clear the bits of `f` (complement within the u8). -/
def removeFlag (v f : Nat) : Nat := v &&& (0xFF ^^^ f)

/-- `bitflags` `toggle`: flip the bits of `f` (all flag bits are known). -/
def toggleFlag (v f : Nat) : Nat := v ^^^ (f &&& 0xFF)

/-- `bitflags` `set`: insert when `b`, remove otherwise. -/
def setFlag (v f : Nat) (b : Bool) : Nat := if b then insertFlag v f else removeFlag v f

/-- The system-control register bank `Scr` ($2000..$2007; the 3 padding bytes
carry no state and are omitted). Used both for the hardware registers and for
the shadow image `SCR_MIR`. -/
structure Scr where
  audio_reset : Nat
  audio_nmi : Nat
  banking : Nat
  audio_reg : Nat
  video_reg : Nat
deriving DecidableEq, Repr

/-- The hardware registers a write event can target: the five system-control
bytes and the eight blitter command registers ($4000..$4007). -/
inductive Reg where
  | audioReset
  | audioNmi
  | banking
  | audioReg
  | videoReg
  | bcrFbX
  | bcrFbY
  | bcrVramX
  | bcrVramY
  | bcrWidth
  | bcrHeight
  | bcrStart
  | bcrColor
deriving DecidableEq, Repr

/-- Observable hardware interactions: a one-byte register write, or blocking
on the boot layer's `wait()` primitive (external assembly). -/
inductive Event where
  | write (r : Reg) (v : Nat)
  | waitBlitDone
deriving DecidableEq, Repr

/-- `SystemControl`: the pair of the hardware register bank (`scr`, at $2000)
and the shadow image (`mir`, the `SCR_MIR` static). -/
structure SystemControl where
  scr : Scr
  mir : Scr
deriving DecidableEq, Repr

/-- `pub struct Framebuffers(())` — CPU window shows the framebuffers. -/
structure Framebuffers
deriving DecidableEq, Repr

/-- `pub struct Blitter(())` — blitter command registers visible. -/
structure Blitter
deriving DecidableEq, Repr

/-- `pub struct SpriteMem(())` — CPU window shows sprite RAM. -/
structure SpriteMem
deriving DecidableEq, Repr

/-- `enum VideoDma` — the single video access mode token. -/
inductive VideoDma where
  | dmaFb (fb : Framebuffers)
  | dmaBlit (b : Blitter)
  | dmaSprites (sm : SpriteMem)
deriving DecidableEq, Repr

/-- `Framebuffers::blitter`: insert `DMA_ENABLE`, push the video byte. -/
def Framebuffers.blitter (_ : Framebuffers) (sc : SystemControl) :
    Blitter × SystemControl × List Event :=
  let mir := { sc.mir with video_reg := insertFlag sc.mir.video_reg VideoFlags.DMA_ENABLE }
  (Blitter.mk,
   { mir := mir, scr := { sc.scr with video_reg := mir.video_reg } },
   [Event.write Reg.videoReg mir.video_reg])

/-- `Framebuffers::sprite_mem`: `DMA_ENABLE` already clear; remove
`DMA_CPU_TO_VRAM`, push the video byte. -/
def Framebuffers.sprite_mem (_ : Framebuffers) (sc : SystemControl) :
    SpriteMem × SystemControl × List Event :=
  let mir := { sc.mir with video_reg := removeFlag sc.mir.video_reg VideoFlags.DMA_CPU_TO_VRAM }
  (SpriteMem.mk,
   { mir := mir, scr := { sc.scr with video_reg := mir.video_reg } },
   [Event.write Reg.videoReg mir.video_reg])

/-- `SpriteMem::blitter`: insert `DMA_ENABLE`, push the video byte. -/
def SpriteMem.blitter (_ : SpriteMem) (sc : SystemControl) :
    Blitter × SystemControl × List Event :=
  let mir := { sc.mir with video_reg := insertFlag sc.mir.video_reg VideoFlags.DMA_ENABLE }
  (Blitter.mk,
   { mir := mir, scr := { sc.scr with video_reg := mir.video_reg } },
   [Event.write Reg.videoReg mir.video_reg])

/-- `SpriteMem::framebuffers`: `DMA_ENABLE` already clear; insert
`DMA_CPU_TO_VRAM`, push the video byte. -/
def SpriteMem.framebuffers (_ : SpriteMem) (sc : SystemControl) :
    Framebuffers × SystemControl × List Event :=
  let mir := { sc.mir with video_reg := insertFlag sc.mir.video_reg VideoFlags.DMA_CPU_TO_VRAM }
  (Framebuffers.mk,
   { mir := mir, scr := { sc.scr with video_reg := mir.video_reg } },
   [Event.write Reg.videoReg mir.video_reg])

/-- `Blitter::framebuffers`: remove `DMA_ENABLE`, insert `DMA_CPU_TO_VRAM`,
push the video byte. -/
def Blitter.framebuffers (_ : Blitter) (sc : SystemControl) :
    Framebuffers × SystemControl × List Event :=
  let mir := { sc.mir with
    video_reg := insertFlag (removeFlag sc.mir.video_reg VideoFlags.DMA_ENABLE)
      VideoFlags.DMA_CPU_TO_VRAM }
  (Framebuffers.mk,
   { mir := mir, scr := { sc.scr with video_reg := mir.video_reg } },
   [Event.write Reg.videoReg mir.video_reg])

/-- `Blitter::sprite_mem`: remove `DMA_ENABLE | DMA_CPU_TO_VRAM`,
push the video byte. -/
def Blitter.sprite_mem (_ : Blitter) (sc : SystemControl) :
    SpriteMem × SystemControl × List Event :=
  let mir := { sc.mir with
    video_reg := removeFlag sc.mir.video_reg
      (VideoFlags.DMA_ENABLE ||| VideoFlags.DMA_CPU_TO_VRAM) }
  (SpriteMem.mk,
   { mir := mir, scr := { sc.scr with video_reg := mir.video_reg } },
   [Event.write Reg.videoReg mir.video_reg])

/-- `VideoDma::framebuffers`: dispatch; the `DmaFb` arm is the identity. -/
def VideoDma.framebuffers (v : VideoDma) (sc : SystemControl) :
    Framebuffers × SystemControl × List Event :=
  match v with
  | .dmaFb fb => (fb, sc, [])
  | .dmaBlit b => b.framebuffers sc
  | .dmaSprites sm => sm.framebuffers sc

/-- `VideoDma::blitter`: dispatch; the `DmaBlit` arm is the identity. -/
def VideoDma.blitter (v : VideoDma) (sc : SystemControl) :
    Blitter × SystemControl × List Event :=
  match v with
  | .dmaFb fb => fb.blitter sc
  | .dmaBlit b => (b, sc, [])
  | .dmaSprites sm => sm.blitter sc

/-- `VideoDma::sprite_mem`: dispatch; the `DmaSprites` arm is the identity. -/
def VideoDma.sprite_mem (v : VideoDma) (sc : SystemControl) :
    SpriteMem × SystemControl × List Event :=
  match v with
  | .dmaFb fb => fb.sprite_mem sc
  | .dmaBlit b => b.sprite_mem sc
  | .dmaSprites sm => (sm, sc, [])

/-- The initial value of the `SCR_MIR` static (`.data.zp`, as declared). -/
def SCR_MIR : Scr :=
  { audio_reset := 69
    audio_nmi := 0
    banking := 0
    audio_reg := 0x69
    video_reg := 0 }

/-- `SystemControl::init`: starting from the static initializer of `SCR_MIR`,
insert the default video flags, clear the framebuffer-select bank bit, then
push all five shadow bytes to hardware (in source order). `hw` is the unknown
power-on content of the hardware registers; every byte is overwritten. -/
def SystemControl.init (hw : Scr) : SystemControl × List Event :=
  let mir0 := SCR_MIR
  let v1 := insertFlag mir0.video_reg VideoFlags.DMA_NMI
  let v2 := insertFlag v1 VideoFlags.DMA_IRQ
  let v3 := insertFlag v2 VideoFlags.DMA_GCARRY
  let v4 := insertFlag v3 VideoFlags.DMA_OPAQUE
  let v5 := insertFlag v4 VideoFlags.DMA_PAGE_OUT
  let bk := removeFlag mir0.banking BankFlags.FRAMEBUFFER_SELECT
  let mir := { mir0 with video_reg := v5, banking := bk }
  let scr := { hw with
    audio_reset := mir.audio_reset
    audio_nmi := mir.audio_nmi
    banking := mir.banking
    audio_reg := mir.audio_reg
    video_reg := mir.video_reg }
  ({ scr := scr, mir := mir },
   [Event.write Reg.audioReset mir.audio_reset,
    Event.write Reg.audioNmi mir.audio_nmi,
    Event.write Reg.banking mir.banking,
    Event.write Reg.audioReg mir.audio_reg,
    Event.write Reg.videoReg mir.video_reg])

/-- `enum BlitterFillMode`. -/
inductive BlitterFillMode where
  | sprite
  | color
deriving DecidableEq, BEq, Repr

/-- `SystemControl::set_fill_mode`: `set(DMA_COLORFILL, mode == Color)` on the
shadow, then push the video byte. -/
def SystemControl.set_fill_mode (sc : SystemControl) (mode : BlitterFillMode) :
    SystemControl × List Event :=
  let mir := { sc.mir with
    video_reg := setFlag sc.mir.video_reg VideoFlags.DMA_COLORFILL
      (mode == BlitterFillMode.color) }
  ({ mir := mir, scr := { sc.scr with video_reg := mir.video_reg } },
   [Event.write Reg.videoReg mir.video_reg])

/-- Modelled from the spec: `SystemControl::set_bank` calls `_bank_shift_out`,
external assembly that is not part of the Rust sources; per §4.1/§6 the
banking write goes through the register write gateway, which performs a
read-modify-write of the shadow banking byte (bank index 0–3 into the
RAM-bank-select bits) and then pushes the entire updated byte to the
write-only banking register. -/
def SystemControl.set_bank (sc : SystemControl) (bank : Nat) : SystemControl × List Event :=
  let mir := { sc.mir with
    banking := (sc.mir.banking &&& 0b00111111) ||| ((bank % 4) <<< 6) }
  ({ mir := mir, scr := { sc.scr with banking := mir.banking } },
   [Event.write Reg.banking mir.banking])

/-- `struct DmaManager` — the single arbiter slot. -/
structure DmaManager where
  video_dma : Option VideoDma
deriving DecidableEq, Repr

/-- `DmaManager::new`. -/
def DmaManager.new (vdma : VideoDma) : DmaManager := { video_dma := some vdma }

/-- `struct BlitterGuard` (the borrowed slot is modelled at the call sites). -/
structure BlitterGuard where
  inner : Blitter
deriving DecidableEq, Repr

/-- `struct FramebuffersGuard`. -/
structure FramebuffersGuard where
  inner : Framebuffers
deriving DecidableEq, Repr

/-- `struct SpriteMemGuard`. -/
structure SpriteMemGuard where
  inner : SpriteMem
deriving DecidableEq, Repr

/-- `DmaManager::blitter`: `take()?` the token, transition it to blitter mode,
return the guard. On an empty slot: `None`, nothing else happens. -/
def DmaManager.blitter (dm : DmaManager) (sc : SystemControl) :
    Option BlitterGuard × DmaManager × SystemControl × List Event :=
  match dm.video_dma with
  | none => (none, dm, sc, [])
  | some v =>
    let (b, sc1, evs) := v.blitter sc
    (some { inner := b }, { video_dma := none }, sc1, evs)

/-- `DmaManager::framebuffers`. -/
def DmaManager.framebuffers (dm : DmaManager) (sc : SystemControl) :
    Option FramebuffersGuard × DmaManager × SystemControl × List Event :=
  match dm.video_dma with
  | none => (none, dm, sc, [])
  | some v =>
    let (fb, sc1, evs) := v.framebuffers sc
    (some { inner := fb }, { video_dma := none }, sc1, evs)

/-- `DmaManager::sprite_mem`. -/
def DmaManager.sprite_mem (dm : DmaManager) (sc : SystemControl) :
    Option SpriteMemGuard × DmaManager × SystemControl × List Event :=
  match dm.video_dma with
  | none => (none, dm, sc, [])
  | some v =>
    let (sm, sc1, evs) := v.sprite_mem sc
    (some { inner := sm }, { video_dma := none }, sc1, evs)

/-- `Drop for BlitterGuard`: store a fresh blitter token into the slot. -/
def BlitterGuard.drop (_ : BlitterGuard) (_ : DmaManager) : DmaManager :=
  { video_dma := some (VideoDma.dmaBlit Blitter.mk) }

/-- `Drop for FramebuffersGuard`: store a fresh framebuffers token. -/
def FramebuffersGuard.drop (_ : FramebuffersGuard) (_ : DmaManager) : DmaManager :=
  { video_dma := some (VideoDma.dmaFb Framebuffers.mk) }

/-- `Drop for SpriteMemGuard`: store a fresh sprite-memory token. -/
def SpriteMemGuard.drop (_ : SpriteMemGuard) (_ : DmaManager) : DmaManager :=
  { video_dma := some (VideoDma.dmaSprites SpriteMem.mk) }

/-- `FramebuffersGuard::flip`: toggle `FRAMEBUFFER_SELECT` in the banking
shadow and `DMA_PAGE_OUT` in the video shadow, then push both bytes. -/
def FramebuffersGuard.flip (_ : FramebuffersGuard) (sc : SystemControl) :
    SystemControl × List Event :=
  let mir := { sc.mir with
    banking := toggleFlag sc.mir.banking BankFlags.FRAMEBUFFER_SELECT
    video_reg := toggleFlag sc.mir.video_reg VideoFlags.DMA_PAGE_OUT }
  ({ mir := mir,
     scr := { sc.scr with banking := mir.banking, video_reg := mir.video_reg } },
   [Event.write Reg.banking mir.banking,
    Event.write Reg.videoReg mir.video_reg])

/-- `BlitterGuard::draw_square`: set color fill mode (pushing the video byte),
then write x, y, width, height, color and finally start=1 to the blitter
command registers, in source order. -/
def BlitterGuard.draw_square (_ : BlitterGuard) (sc : SystemControl)
    (x y width height color : Nat) : SystemControl × List Event :=
  let (sc1, evs) := sc.set_fill_mode BlitterFillMode.color
  (sc1, evs ++
    [Event.write Reg.bcrFbX x,
     Event.write Reg.bcrFbY y,
     Event.write Reg.bcrWidth width,
     Event.write Reg.bcrHeight height,
     Event.write Reg.bcrColor color,
     Event.write Reg.bcrStart 1])

/-- `BlitterGuard::draw_sprite`: set sprite fill mode, then write source and
destination coordinates, size, and start=1, in source order. -/
def BlitterGuard.draw_sprite (_ : BlitterGuard) (sc : SystemControl)
    (sx sy fb_x fb_y width height : Nat) : SystemControl × List Event :=
  let (sc1, evs) := sc.set_fill_mode BlitterFillMode.sprite
  (sc1, evs ++
    [Event.write Reg.bcrVramX sx,
     Event.write Reg.bcrVramY sy,
     Event.write Reg.bcrFbX fb_x,
     Event.write Reg.bcrFbY fb_y,
     Event.write Reg.bcrWidth width,
     Event.write Reg.bcrHeight height,
     Event.write Reg.bcrStart 1])

/-- `BlitterGuard::wait_blit`: block on the boot layer's `wait()` primitive,
then clear the start-trigger register. Pure trace of hardware interactions. -/
def BlitterGuard.wait_blit (_ : BlitterGuard) : List Event :=
  [Event.waitBlitDone, Event.write Reg.bcrStart 0]

/-- `struct Console`. -/
structure Console where
  sc : SystemControl
  dma : DmaManager

/-- `Console::init`: initialize system control, create the arbiter holding
the `SpriteMem` token. -/
def Console.init (hw : Scr) : Console × List Event :=
  let (sc, evs) := SystemControl.init hw
  ({ sc := sc, dma := DmaManager.new (VideoDma.dmaSprites SpriteMem.mk) }, evs)

/-- The three access modes, for stating properties uniformly. -/
inductive Mode where
  | framebuffer
  | blitter
  | spriteMem
deriving DecidableEq, Repr

/-- The mode a token represents. -/
def VideoDma.mode : VideoDma → Mode
  | .dmaFb _ => .framebuffer
  | .dmaBlit _ => .blitter
  | .dmaSprites _ => .spriteMem

/-- Dispatch a token transition by target mode, re-wrapping the resulting
token as a `VideoDma` (packaging of the three `VideoDma` methods). -/
def VideoDma.transitionTo (v : VideoDma) (m : Mode) (sc : SystemControl) :
    VideoDma × SystemControl × List Event :=
  match m with
  | .framebuffer =>
    let (t, sc1, evs) := v.framebuffers sc
    (VideoDma.dmaFb t, sc1, evs)
  | .blitter =>
    let (t, sc1, evs) := v.blitter sc
    (VideoDma.dmaBlit t, sc1, evs)
  | .spriteMem =>
    let (t, sc1, evs) := v.sprite_mem sc
    (VideoDma.dmaSprites t, sc1, evs)

/-- The §4.2 bit pattern of a mode in a video-flags byte: `DMA_ENABLE = 1`
means blitter; with `DMA_ENABLE = 0` the `DMA_CPU_TO_VRAM` direction bit
selects framebuffers (1) or sprite memory (0). -/
def modeBits (m : Mode) (v : Nat) : Prop :=
  match m with
  | .framebuffer =>
    v &&& VideoFlags.DMA_ENABLE = 0 ∧
    v &&& VideoFlags.DMA_CPU_TO_VRAM = VideoFlags.DMA_CPU_TO_VRAM
  | .blitter => v &&& VideoFlags.DMA_ENABLE = VideoFlags.DMA_ENABLE
  | .spriteMem =>
    v &&& VideoFlags.DMA_ENABLE = 0 ∧
    v &&& VideoFlags.DMA_CPU_TO_VRAM = 0

instance (m : Mode) (v : Nat) : Decidable (modeBits m v) := by
  cases m <;> simp only [modeBits] <;> infer_instance

/-- Shadow/hardware synchronization: the hardware bank equals the shadow. -/
def synced (sc : SystemControl) : Prop := sc.scr = sc.mir

instance (sc : SystemControl) : Decidable (synced sc) := by
  simp only [synced]; infer_instance

/-- A concrete system-control state: hardware equal to the `SCR_MIR`
initializer (used to instantiate universally quantified theorems). -/
def sc0 : SystemControl := { scr := SCR_MIR, mir := SCR_MIR }

/-! Byte-level facts about the flag operations, each established by
exhaustive evaluation over the 256 byte values. -/

lemma insert_enable_bits : ∀ v < 256,
    modeBits Mode.blitter (insertFlag v VideoFlags.DMA_ENABLE) := by decide

lemma remove_dir_bits : ∀ v < 256, modeBits Mode.framebuffer v →
    modeBits Mode.spriteMem (removeFlag v VideoFlags.DMA_CPU_TO_VRAM) := by decide

lemma insert_dir_bits : ∀ v < 256, modeBits Mode.spriteMem v →
    modeBits Mode.framebuffer (insertFlag v VideoFlags.DMA_CPU_TO_VRAM) := by decide

lemma remove_enable_insert_dir_bits : ∀ v < 256,
    modeBits Mode.framebuffer
      (insertFlag (removeFlag v VideoFlags.DMA_ENABLE) VideoFlags.DMA_CPU_TO_VRAM) := by
  decide

lemma remove_enable_dir_bits : ∀ v < 256,
    modeBits Mode.spriteMem
      (removeFlag v (VideoFlags.DMA_ENABLE ||| VideoFlags.DMA_CPU_TO_VRAM)) := by decide

lemma insert_colorfill_set : ∀ v < 256,
    (insertFlag v VideoFlags.DMA_COLORFILL) &&& VideoFlags.DMA_COLORFILL =
      VideoFlags.DMA_COLORFILL := by decide

lemma insert_enable_frame : ∀ v < 256,
    insertFlag v VideoFlags.DMA_ENABLE < 256 ∧
    (insertFlag v VideoFlags.DMA_ENABLE) &&& 0xDE = v &&& 0xDE ∧
    ∀ i < 8, i ≠ 0 → i ≠ 5 →
      (insertFlag v VideoFlags.DMA_ENABLE).testBit i = v.testBit i := by decide

lemma remove_dir_frame : ∀ v < 256,
    removeFlag v VideoFlags.DMA_CPU_TO_VRAM < 256 ∧
    (removeFlag v VideoFlags.DMA_CPU_TO_VRAM) &&& 0xDE = v &&& 0xDE ∧
    ∀ i < 8, i ≠ 0 → i ≠ 5 →
      (removeFlag v VideoFlags.DMA_CPU_TO_VRAM).testBit i = v.testBit i := by decide

lemma insert_dir_frame : ∀ v < 256,
    insertFlag v VideoFlags.DMA_CPU_TO_VRAM < 256 ∧
    (insertFlag v VideoFlags.DMA_CPU_TO_VRAM) &&& 0xDE = v &&& 0xDE ∧
    ∀ i < 8, i ≠ 0 → i ≠ 5 →
      (insertFlag v VideoFlags.DMA_CPU_TO_VRAM).testBit i = v.testBit i := by decide

lemma remove_enable_insert_dir_frame : ∀ v < 256,
    insertFlag (removeFlag v VideoFlags.DMA_ENABLE) VideoFlags.DMA_CPU_TO_VRAM < 256 ∧
    (insertFlag (removeFlag v VideoFlags.DMA_ENABLE) VideoFlags.DMA_CPU_TO_VRAM) &&& 0xDE =
      v &&& 0xDE ∧
    ∀ i < 8, i ≠ 0 → i ≠ 5 →
      (insertFlag (removeFlag v VideoFlags.DMA_ENABLE)
        VideoFlags.DMA_CPU_TO_VRAM).testBit i = v.testBit i := by decide

lemma remove_enable_dir_frame : ∀ v < 256,
    removeFlag v (VideoFlags.DMA_ENABLE ||| VideoFlags.DMA_CPU_TO_VRAM) < 256 ∧
    (removeFlag v (VideoFlags.DMA_ENABLE ||| VideoFlags.DMA_CPU_TO_VRAM)) &&& 0xDE =
      v &&& 0xDE ∧
    ∀ i < 8, i ≠ 0 → i ≠ 5 →
      (removeFlag v (VideoFlags.DMA_ENABLE |||
        VideoFlags.DMA_CPU_TO_VRAM)).testBit i = v.testBit i := by decide

lemma toggle_select_frame : ∀ v < 256,
    (toggleFlag v BankFlags.FRAMEBUFFER_SELECT) &&& 0xF7 = v &&& 0xF7 ∧
    (toggleFlag v BankFlags.FRAMEBUFFER_SELECT).testBit 3 = !v.testBit 3 ∧
    ∀ i < 8, i ≠ 3 →
      (toggleFlag v BankFlags.FRAMEBUFFER_SELECT).testBit i = v.testBit i := by decide

lemma toggle_page_out_frame : ∀ v < 256,
    (toggleFlag v VideoFlags.DMA_PAGE_OUT) &&& 0xFD = v &&& 0xFD ∧
    (toggleFlag v VideoFlags.DMA_PAGE_OUT).testBit 1 = !v.testBit 1 ∧
    ∀ i < 8, i ≠ 1 →
      (toggleFlag v VideoFlags.DMA_PAGE_OUT).testBit i = v.testBit i := by decide

/-- Claim C1: each `DmaManager` checkout returns a guard exactly when the
arbiter slot holds a token; a checkout attempted while a guard is outstanding
(slot `none`) returns `none` and leaves the slot, the system-control state
(hence the shadow and hardware video-flags register) and the write trace
unchanged. -/
theorem checkout_single_guard (dm : DmaManager) (sc : SystemControl) :
    ((dm.blitter sc).1.isSome = dm.video_dma.isSome) ∧
    ((dm.framebuffers sc).1.isSome = dm.video_dma.isSome) ∧
    ((dm.sprite_mem sc).1.isSome = dm.video_dma.isSome) ∧
    (dm.video_dma = none →
      dm.blitter sc = (none, dm, sc, []) ∧
      dm.framebuffers sc = (none, dm, sc, []) ∧
      dm.sprite_mem sc = (none, dm, sc, [])) ∧
    (∀ t, dm.video_dma = some t →
      (dm.blitter sc).2.1 = DmaManager.mk none ∧
      (dm.framebuffers sc).2.1 = DmaManager.mk none ∧
      (dm.sprite_mem sc).2.1 = DmaManager.mk none) := by
  obtain ⟨vd⟩ := dm
  cases vd with
  | none =>
    exact ⟨rfl, rfl, rfl, fun _ => ⟨rfl, rfl, rfl⟩,
      fun t ht => Option.noConfusion ht⟩
  | some v =>
    cases v <;>
      exact ⟨rfl, rfl, rfl, fun h => Option.noConfusion h,
        fun t _ => ⟨rfl, rfl, rfl⟩⟩

/-- Claim C1 witness: a checkout on an empty slot concretely returns `none`
and changes nothing. -/
theorem checkout_single_guard_witness :
    (DmaManager.mk none).blitter sc0 = (none, DmaManager.mk none, sc0, []) :=
  ((checkout_single_guard (DmaManager.mk none) sc0).2.2.2.1 rfl).1

/-- Claim C4: dropping a guard stores a fresh token of the guard's own mode
into the arbiter slot, whatever the slot held; the checked-out mode is the
sticky idle mode, and the next checkout then succeeds. -/
theorem guard_release_restores_mode (bg : BlitterGuard) (fg : FramebuffersGuard)
    (sg : SpriteMemGuard) (dm : DmaManager) (sc : SystemControl) :
    bg.drop dm = { video_dma := some (VideoDma.dmaBlit Blitter.mk) } ∧
    fg.drop dm = { video_dma := some (VideoDma.dmaFb Framebuffers.mk) } ∧
    sg.drop dm = { video_dma := some (VideoDma.dmaSprites SpriteMem.mk) } ∧
    ((bg.drop dm).blitter sc).1.isSome = true ∧
    ((fg.drop dm).framebuffers sc).1.isSome = true ∧
    ((sg.drop dm).sprite_mem sc).1.isSome = true :=
  ⟨rfl, rfl, rfl, rfl, rfl, rfl⟩

/-- Claim C4 witness: dropping a concrete framebuffers guard over an emptied
slot stores a framebuffers token. -/
theorem guard_release_restores_mode_witness :
    (FramebuffersGuard.mk Framebuffers.mk).drop (DmaManager.mk none) =
      { video_dma := some (VideoDma.dmaFb Framebuffers.mk) } :=
  (guard_release_restores_mode (BlitterGuard.mk Blitter.mk)
    (FramebuffersGuard.mk Framebuffers.mk) (SpriteMemGuard.mk SpriteMem.mk)
    (DmaManager.mk none) sc0).2.1

/-- Claim C5: after `SystemControl::init` the shadow video byte has DMA
disabled, sprite-memory direction, NMI, IRQ, GCARRY and OPAQUE set, the
banking byte has framebuffer bank 0, the hardware bank equals the shadow, and
`Console::init` creates the arbiter holding the `SpriteMem` token. -/
theorem init_safe_defaults (hw : Scr) :
    ((SystemControl.init hw).1.mir.video_reg &&& VideoFlags.DMA_ENABLE = 0) ∧
    ((SystemControl.init hw).1.mir.video_reg &&& VideoFlags.DMA_CPU_TO_VRAM = 0) ∧
    ((SystemControl.init hw).1.mir.video_reg &&& VideoFlags.DMA_NMI =
      VideoFlags.DMA_NMI) ∧
    ((SystemControl.init hw).1.mir.video_reg &&& VideoFlags.DMA_IRQ =
      VideoFlags.DMA_IRQ) ∧
    ((SystemControl.init hw).1.mir.video_reg &&& VideoFlags.DMA_GCARRY =
      VideoFlags.DMA_GCARRY) ∧
    ((SystemControl.init hw).1.mir.video_reg &&& VideoFlags.DMA_OPAQUE =
      VideoFlags.DMA_OPAQUE) ∧
    ((SystemControl.init hw).1.mir.banking &&& BankFlags.FRAMEBUFFER_SELECT = 0) ∧
    ((SystemControl.init hw).1.scr = (SystemControl.init hw).1.mir) ∧
    ((Console.init hw).1.dma.video_dma = some (VideoDma.dmaSprites SpriteMem.mk)) := by
  have hv : (SystemControl.init hw).1.mir.video_reg = 214 := rfl
  have hb : (SystemControl.init hw).1.mir.banking = 0 := rfl
  refine ⟨?_, ?_, ?_, ?_, ?_, ?_, ?_, rfl, rfl⟩ <;> simp only [hv, hb] <;> decide

/-- Claim C5 witness: at a concrete power-on state, `Console::init` leaves
the arbiter slot holding the sprite-memory token. -/
theorem init_safe_defaults_witness :
    (Console.init SCR_MIR).1.dma.video_dma = some (VideoDma.dmaSprites SpriteMem.mk) :=
  (init_safe_defaults SCR_MIR).2.2.2.2.2.2.2.2

/-- Claim C9: `SystemControl::init` also sets the `DMA_PAGE_OUT` bit (bit 1),
so the post-init video-flags byte, in shadow and hardware, is exactly
`0b11010110`. -/
theorem init_sets_page_out (hw : Scr) :
    ((SystemControl.init hw).1.mir.video_reg.testBit 1 = true) ∧
    ((SystemControl.init hw).1.mir.video_reg = 0b11010110) ∧
    ((SystemControl.init hw).1.scr.video_reg = 0b11010110) := by
  have hv : (SystemControl.init hw).1.mir.video_reg = 214 := rfl
  have hs : (SystemControl.init hw).1.scr.video_reg = 214 := rfl
  exact ⟨by rw [hv]; decide, hv, hs⟩

/-- Claim C9 witness: the concrete post-init shadow video byte. -/
theorem init_sets_page_out_witness :
    (SystemControl.init SCR_MIR).1.mir.video_reg = 0b11010110 :=
  (init_sets_page_out SCR_MIR).2.1

/-- Claim C10: `SystemControl::init` pushes the `SCR_MIR` initializer's audio
bytes unmodified — 69 to the audio-reset trigger and 0x69 to the audio
configuration register — so every run of init performs a nonzero write to the
audio-reset trigger; the full write trace is listed. -/
theorem init_audio_bytes (hw : Scr) :
    ((SystemControl.init hw).1.scr.audio_reset = 69) ∧
    ((SystemControl.init hw).1.scr.audio_reg = 0x69) ∧
    ((SystemControl.init hw).2 =
      [Event.write Reg.audioReset 69,
       Event.write Reg.audioNmi 0,
       Event.write Reg.banking 0,
       Event.write Reg.audioReg 0x69,
       Event.write Reg.videoReg 0b11010110]) ∧
    (69 : Nat) ≠ 0 :=
  ⟨rfl, rfl, rfl, by decide⟩

/-- Claim C10 witness: at a concrete power-on state, init writes 69 to the
audio-reset trigger. -/
theorem init_audio_bytes_witness :
    (SystemControl.init SCR_MIR).1.scr.audio_reset = 69 :=
  (init_audio_bytes SCR_MIR).1

/-- Claim C3: starting from a synchronized state, every operation of this
layer — `SystemControl::init` (from any power-on hardware content),
`set_bank`, `set_fill_mode`, each of the nine mode transitions, and
`FramebuffersGuard::flip` — ends with the hardware register bank
byte-for-byte equal to the shadow image. -/
theorem shadow_hw_synchronized (hw : Scr) (sc : SystemControl) (bank : Nat)
    (mode : BlitterFillMode) (v : VideoDma) (m : Mode) (g : FramebuffersGuard)
    (hs : synced sc) :
    synced (SystemControl.init hw).1 ∧
    synced (sc.set_bank bank).1 ∧
    synced (sc.set_fill_mode mode).1 ∧
    synced (v.transitionTo m sc).2.1 ∧
    synced (g.flip sc).1 := by
  obtain ⟨hwr, shr⟩ := sc
  simp only [synced] at hs
  cases hs
  refine ⟨rfl, rfl, rfl, ?_, rfl⟩
  cases v <;> cases m <;> rfl

/-- Claim C3 witness: the synchronization facts at a concrete synchronized
state, bank 1, color fill mode, a sprite-memory token moving to blitter
mode. -/
theorem shadow_hw_synchronized_witness :
    synced (SystemControl.init SCR_MIR).1 ∧
    synced (sc0.set_bank 1).1 ∧
    synced (sc0.set_fill_mode BlitterFillMode.color).1 ∧
    synced ((VideoDma.dmaSprites SpriteMem.mk).transitionTo Mode.blitter sc0).2.1 ∧
    synced (FramebuffersGuard.mk Framebuffers.mk |>.flip sc0).1 :=
  shadow_hw_synchronized SCR_MIR sc0 1 BlitterFillMode.color
    (VideoDma.dmaSprites SpriteMem.mk) Mode.blitter
    (FramebuffersGuard.mk Framebuffers.mk) rfl

/-- Claim C6: `flip` replaces the banking shadow by its XOR with bit 3 and
the video shadow by its XOR with bit 1 — toggling exactly the
framebuffer-select and page-out bits and leaving every other bit of both
bytes unchanged — pushes both updated bytes to hardware, and a second `flip`
restores both bytes (shadow and pushed hardware values) to the pre-flip
values. -/
theorem flip_round_trip (g : FramebuffersGuard) (sc : SystemControl)
    (hbk : sc.mir.banking < 256) (hv : sc.mir.video_reg < 256) :
    ((g.flip sc).1.mir.banking = sc.mir.banking ^^^ BankFlags.FRAMEBUFFER_SELECT) ∧
    ((g.flip sc).1.mir.video_reg = sc.mir.video_reg ^^^ VideoFlags.DMA_PAGE_OUT) ∧
    ((g.flip sc).1.mir.banking &&& 0xF7 = sc.mir.banking &&& 0xF7) ∧
    ((g.flip sc).1.mir.video_reg &&& 0xFD = sc.mir.video_reg &&& 0xFD) ∧
    ((g.flip sc).1.mir.banking.testBit 3 = !sc.mir.banking.testBit 3) ∧
    ((g.flip sc).1.mir.video_reg.testBit 1 = !sc.mir.video_reg.testBit 1) ∧
    (∀ i < 8, i ≠ 3 → (g.flip sc).1.mir.banking.testBit i = sc.mir.banking.testBit i) ∧
    (∀ i < 8, i ≠ 1 → (g.flip sc).1.mir.video_reg.testBit i = sc.mir.video_reg.testBit i) ∧
    ((g.flip sc).1.scr.banking = (g.flip sc).1.mir.banking) ∧
    ((g.flip sc).1.scr.video_reg = (g.flip sc).1.mir.video_reg) ∧
    ((g.flip sc).2 =
      [Event.write Reg.banking (g.flip sc).1.mir.banking,
       Event.write Reg.videoReg (g.flip sc).1.mir.video_reg]) ∧
    ((g.flip (g.flip sc).1).1.mir.banking = sc.mir.banking) ∧
    ((g.flip (g.flip sc).1).1.mir.video_reg = sc.mir.video_reg) ∧
    ((g.flip (g.flip sc).1).1.scr.banking = sc.mir.banking) ∧
    ((g.flip (g.flip sc).1).1.scr.video_reg = sc.mir.video_reg) := by
  obtain ⟨hb1, hb2, hb3⟩ := toggle_select_frame sc.mir.banking hbk
  obtain ⟨hv1, hv2, hv3⟩ := toggle_page_out_frame sc.mir.video_reg hv
  refine ⟨rfl, rfl, hb1, hv1, hb2, hv2, hb3, hv3, rfl, rfl, rfl, ?_, ?_, ?_, ?_⟩ <;>
    exact Nat.xor_cancel_right _ _

/-- Claim C6 witness: the flip facts at the post-init state. -/
theorem flip_round_trip_witness :
    (FramebuffersGuard.mk Framebuffers.mk |>.flip
      (FramebuffersGuard.mk Framebuffers.mk |>.flip sc0).1).1.mir.video_reg =
      sc0.mir.video_reg :=
  (flip_round_trip (FramebuffersGuard.mk Framebuffers.mk) sc0
    (by decide) (by decide)).2.2.2.2.2.2.2.2.2.2.2.2.1

/-- Claim C7: `draw_square` sets color fill mode (pushing the video byte
through the gateway) and then writes x, y, width, height, color and finally
start=1 to the blitter command registers, start being the last register
write; `wait_blit` first blocks on the hardware wait primitive and then
writes start=0. Stated for all arguments and at the concrete input
(10, 20, 8, 8, 0x0F). -/
theorem draw_square_protocol (g : BlitterGuard) (sc : SystemControl)
    (hv : sc.mir.video_reg < 256) (x y w h c : Nat) :
    ((g.draw_square sc x y w h c).2 =
      [Event.write Reg.videoReg (insertFlag sc.mir.video_reg VideoFlags.DMA_COLORFILL),
       Event.write Reg.bcrFbX x,
       Event.write Reg.bcrFbY y,
       Event.write Reg.bcrWidth w,
       Event.write Reg.bcrHeight h,
       Event.write Reg.bcrColor c,
       Event.write Reg.bcrStart 1]) ∧
    ((g.draw_square sc x y w h c).1.mir.video_reg &&& VideoFlags.DMA_COLORFILL =
      VideoFlags.DMA_COLORFILL) ∧
    ((g.draw_square sc x y w h c).1.scr.video_reg =
      (g.draw_square sc x y w h c).1.mir.video_reg) ∧
    ((g.draw_square sc x y w h c).2.getLast? = some (Event.write Reg.bcrStart 1)) ∧
    ((g.draw_square sc 10 20 8 8 0x0F).2 =
      [Event.write Reg.videoReg (insertFlag sc.mir.video_reg VideoFlags.DMA_COLORFILL),
       Event.write Reg.bcrFbX 10,
       Event.write Reg.bcrFbY 20,
       Event.write Reg.bcrWidth 8,
       Event.write Reg.bcrHeight 8,
       Event.write Reg.bcrColor 15,
       Event.write Reg.bcrStart 1]) ∧
    (g.wait_blit = [Event.waitBlitDone, Event.write Reg.bcrStart 0]) :=
  ⟨rfl, insert_colorfill_set sc.mir.video_reg hv, rfl, rfl, rfl, rfl⟩

/-- Claim C7 witness: the concrete-scenario conjunct at the post-init
state. -/
theorem draw_square_protocol_witness :
    (BlitterGuard.mk Blitter.mk |>.draw_square sc0 10 20 8 8 0x0F).2 =
      [Event.write Reg.videoReg (insertFlag sc0.mir.video_reg VideoFlags.DMA_COLORFILL),
       Event.write Reg.bcrFbX 10,
       Event.write Reg.bcrFbY 20,
       Event.write Reg.bcrWidth 8,
       Event.write Reg.bcrHeight 8,
       Event.write Reg.bcrColor 15,
       Event.write Reg.bcrStart 1] :=
  (draw_square_protocol (BlitterGuard.mk Blitter.mk) sc0 (by decide)
    10 20 8 8 0x0F).2.2.2.2.1

/-- Claim C2: for each of the nine (from-mode, to-mode) pairs, starting from
any shadow video byte consistent with the from-mode, the transition produces
exactly the §4.2 bit pattern of the to-mode in the DMA-enable and
CPU-to-VRAM-direction bits, the hardware video byte ends equal to the updated
shadow byte, and a self-transition is the identity with no register write. -/
theorem mode_transitions_match_table (v : VideoDma) (m : Mode) (sc : SystemControl)
    (hb : sc.mir.video_reg < 256)
    (hc : modeBits v.mode sc.mir.video_reg)
    (hs : sc.scr.video_reg = sc.mir.video_reg) :
    modeBits m (v.transitionTo m sc).2.1.mir.video_reg ∧
    ((v.transitionTo m sc).2.1.scr.video_reg = (v.transitionTo m sc).2.1.mir.video_reg) ∧
    (m = v.mode → v.transitionTo m sc = (v, sc, [])) := by
  cases v with
  | dmaFb fb =>
    cases m with
    | framebuffer => exact ⟨hc, hs, fun _ => rfl⟩
    | blitter =>
      exact ⟨insert_enable_bits sc.mir.video_reg hb, rfl,
        fun hm => Mode.noConfusion hm⟩
    | spriteMem =>
      exact ⟨remove_dir_bits sc.mir.video_reg hb hc, rfl,
        fun hm => Mode.noConfusion hm⟩
  | dmaBlit b =>
    cases m with
    | framebuffer =>
      exact ⟨remove_enable_insert_dir_bits sc.mir.video_reg hb, rfl,
        fun hm => Mode.noConfusion hm⟩
    | blitter => exact ⟨hc, hs, fun _ => rfl⟩
    | spriteMem =>
      exact ⟨remove_enable_dir_bits sc.mir.video_reg hb, rfl,
        fun hm => Mode.noConfusion hm⟩
  | dmaSprites sm =>
    cases m with
    | framebuffer =>
      exact ⟨insert_dir_bits sc.mir.video_reg hb hc, rfl,
        fun hm => Mode.noConfusion hm⟩
    | blitter =>
      exact ⟨insert_enable_bits sc.mir.video_reg hb, rfl,
        fun hm => Mode.noConfusion hm⟩
    | spriteMem => exact ⟨hc, hs, fun _ => rfl⟩

/-- Claim C2 witness: the sprite-memory to blitter transition at the
post-init shadow value. -/
theorem mode_transitions_match_table_witness :
    modeBits Mode.blitter
      ((VideoDma.dmaSprites SpriteMem.mk).transitionTo Mode.blitter sc0).2.1.mir.video_reg :=
  (mode_transitions_match_table (VideoDma.dmaSprites SpriteMem.mk) Mode.blitter sc0
    (by decide) (by decide) rfl).1

/-- The frame conditions of a mode-transition write: the write trace is a
single one-byte write of the video-flags register carrying the updated
shadow byte; the updated byte is still a byte; every video-flags bit other
than DMA-enable (bit 0) and CPU-to-VRAM direction (bit 5) is unchanged
(mask `0xDE` and per-bit); every other shadow and hardware register byte is
unchanged; and the hardware video byte equals the updated shadow byte. -/
def videoOnlyWrite (sc sc1 : SystemControl) (evs : List Event) : Prop :=
  evs = [Event.write Reg.videoReg sc1.mir.video_reg] ∧
  sc1.mir.video_reg < 256 ∧
  sc1.mir.video_reg &&& 0xDE = sc.mir.video_reg &&& 0xDE ∧
  (∀ i < 8, i ≠ 0 → i ≠ 5 → sc1.mir.video_reg.testBit i = sc.mir.video_reg.testBit i) ∧
  sc1.mir.banking = sc.mir.banking ∧
  sc1.mir.audio_reset = sc.mir.audio_reset ∧
  sc1.mir.audio_nmi = sc.mir.audio_nmi ∧
  sc1.mir.audio_reg = sc.mir.audio_reg ∧
  sc1.scr.banking = sc.scr.banking ∧
  sc1.scr.audio_reset = sc.scr.audio_reset ∧
  sc1.scr.audio_nmi = sc.scr.audio_nmi ∧
  sc1.scr.audio_reg = sc.scr.audio_reg ∧
  sc1.scr.video_reg = sc1.mir.video_reg

/-- Claim C8: each of the six directed mode-transition operations modifies
only the DMA-enable and CPU-to-VRAM-direction bits of the video-flags byte,
leaves every other video-flags bit and every other register byte (banking,
audio-reset, audio-NMI, audio-config, in shadow and hardware) unchanged, and
pushes the updated mode bits to hardware as a single one-byte write of the
video-flags register. -/
theorem transitions_touch_only_mode_bits (sc : SystemControl)
    (hv : sc.mir.video_reg < 256)
    (fb : Framebuffers) (b : Blitter) (sm : SpriteMem) :
    videoOnlyWrite sc (fb.blitter sc).2.1 (fb.blitter sc).2.2 ∧
    videoOnlyWrite sc (fb.sprite_mem sc).2.1 (fb.sprite_mem sc).2.2 ∧
    videoOnlyWrite sc (sm.blitter sc).2.1 (sm.blitter sc).2.2 ∧
    videoOnlyWrite sc (sm.framebuffers sc).2.1 (sm.framebuffers sc).2.2 ∧
    videoOnlyWrite sc (b.framebuffers sc).2.1 (b.framebuffers sc).2.2 ∧
    videoOnlyWrite sc (b.sprite_mem sc).2.1 (b.sprite_mem sc).2.2 := by
  obtain ⟨he1, he2, he3⟩ := insert_enable_frame sc.mir.video_reg hv
  obtain ⟨hr1, hr2, hr3⟩ := remove_dir_frame sc.mir.video_reg hv
  obtain ⟨hi1, hi2, hi3⟩ := insert_dir_frame sc.mir.video_reg hv
  obtain ⟨hf1, hf2, hf3⟩ := remove_enable_insert_dir_frame sc.mir.video_reg hv
  obtain ⟨hd1, hd2, hd3⟩ := remove_enable_dir_frame sc.mir.video_reg hv
  exact ⟨⟨rfl, he1, he2, he3, rfl, rfl, rfl, rfl, rfl, rfl, rfl, rfl, rfl⟩,
    ⟨rfl, hr1, hr2, hr3, rfl, rfl, rfl, rfl, rfl, rfl, rfl, rfl, rfl⟩,
    ⟨rfl, he1, he2, he3, rfl, rfl, rfl, rfl, rfl, rfl, rfl, rfl, rfl⟩,
    ⟨rfl, hi1, hi2, hi3, rfl, rfl, rfl, rfl, rfl, rfl, rfl, rfl, rfl⟩,
    ⟨rfl, hf1, hf2, hf3, rfl, rfl, rfl, rfl, rfl, rfl, rfl, rfl, rfl⟩,
    ⟨rfl, hd1, hd2, hd3, rfl, rfl, rfl, rfl, rfl, rfl, rfl, rfl, rfl⟩⟩

/-- Claim C8 witness: the frame conditions for the framebuffer-to-blitter
transition at the post-init state. -/
theorem transitions_touch_only_mode_bits_witness :
    videoOnlyWrite sc0 (Framebuffers.mk.blitter sc0).2.1
      (Framebuffers.mk.blitter sc0).2.2 :=
  (transitions_touch_only_mode_bits sc0 (by decide)
    Framebuffers.mk Blitter.mk SpriteMem.mk).1

end GameTank
